import Mathlib

/-!
Verification of the interactive SuiteQL REPL (`src/suiteql.py`).

The development shallowly embeds the interactive core of the program:
the session state captured by the closure variables of `interactive_repl`
(`output_json`, `default_limit`, `default_offset`, `last_query`), the
meta-command dispatch chain of the loop body, the nested helpers
`execute_query` and `display_result`, and the loop itself.  External
collaborators (the network call made by `run_suiteql_query`, the file
system read of `Path.read_text`) are modelled as an environment of
oracle functions; every observable action (console print, executor
invocation, formatter invocation, file read) is recorded as an explicit
effect so that theorems can speak about what was and was not called.

Python `int` is unbounded, so numeric fields are `Int`.  Strings keep
their user-visible content; the `rich` colour markup (`[red]…[/red]`,
`[dim]…[/dim]`) is stripped, since it is presentation-layer escaping
performed by the rendering collaborator.
-/

namespace SuiteQL

/-- Python `str.isspace()` / the whitespace set CPython uses in
`str.strip()`, `str.split(None)` and `int()`: the ASCII controls
U+0009..U+000D, the separators U+001C..U+001F, the space, U+0085 (NEL),
U+00A0 (NBSP), U+1680, U+2000..U+200A, U+2028, U+2029, U+202F, U+205F and
U+3000 — the complete set, so stripping and splitting below agree with
Python on every input. -/
def pyIsSpace (c : Char) : Bool :=
  let n := c.toNat
  (0x09 ≤ n && n ≤ 0x0d) || (0x1c ≤ n && n ≤ 0x1f) || n == 0x20 ||
  n == 0x85 || n == 0xa0 || n == 0x1680 ||
  (0x2000 ≤ n && n ≤ 0x200a) || n == 0x2028 || n == 0x2029 ||
  n == 0x202f || n == 0x205f || n == 0x3000

/-- Python `str.strip()` on both ends. -/
def pyStrip (s : String) : String :=
  String.mk (((s.data.dropWhile pyIsSpace).reverse.dropWhile
    pyIsSpace).reverse)

/-- Python `s.startswith(pre)`. -/
def pyStartsWith (s pre : String) : Bool :=
  List.isPrefixOf pre.data s.data

/-- Python `s.split(None, 1)`: skip leading whitespace, cut at the first
whitespace run, drop that run, keep the remainder verbatim (including any
trailing whitespace).  Returns `[]`, `[head]`, or `[head, rest]`. -/
def splitNone1 (s : String) : List String :=
  let cs := s.data.dropWhile pyIsSpace
  let head := cs.takeWhile (fun c => !pyIsSpace c)
  let rest := (cs.dropWhile (fun c => !pyIsSpace c)).dropWhile pyIsSpace
  if head = [] then []
  else if rest = [] then [String.mk head]
  else [String.mk head, String.mk rest]

/-- Value of a decimal digit string. -/
def digitsToNat (cs : List Char) : Nat :=
  cs.foldl (fun a c => a * 10 + (c.toNat - 48)) 0

/-- Continuation of a Python decimal literal after its first digit:
further digits, with single underscores allowed between two digits
(`1_0` parses, `1__0`, `_1`, `1_` do not). -/
def pyDigitTail : List Char → Bool
  | [] => true
  | '_' :: rest =>
    match rest with
    | [] => false
    | c :: rest2 => c.isDigit && pyDigitTail rest2
  | c :: rest => c.isDigit && pyDigitTail rest

/-- A Python decimal-literal body: at least one ASCII digit, underscore
grouping as `int()` accepts it. -/
def pyDigitCore (cs : List Char) : Bool :=
  match cs with
  | [] => false
  | c :: rest => c.isDigit && pyDigitTail rest

/-- Python `int(s)` on a decimal string: surrounding whitespace (the
`pyIsSpace` set, exactly as CPython trims) is ignored, one optional sign
is allowed, and the body must be ASCII digits with Python underscore
grouping; anything else raises `ValueError`, modelled as `none`.  On
all-ASCII input this agrees with `int()` exactly; numerals using
non-ASCII Unicode digit characters are the one case left outside the
model (they are modelled as failing), which is why the offset-invariant
gate below restricts arguments to ASCII. -/
def pyInt? (s : String) : Option Int :=
  let t := ((s.data.dropWhile pyIsSpace).reverse.dropWhile
    pyIsSpace).reverse
  let neg : Bool := match t with
    | '-' :: _ => true
    | _ => false
  let core : List Char := match t with
    | '-' :: r => r
    | '+' :: r => r
    | r => r
  if pyDigitCore core then
    some (if neg then
            -(Int.ofNat (digitsToNat (core.filter (fun c => c ≠ '_'))))
          else Int.ofNat (digitsToNat (core.filter (fun c => c ≠ '_'))))
  else none

/-- Python `x or d` for an optional integer `x` (used for
`default_limit or 10` and `default_offset or 0`): both `None` and `0`
are falsy and select the default. -/
def pyOrInt (o : Option Int) (d : Int) : Int :=
  match o with
  | some n => if n = 0 then d else n
  | none => d

/-- JSON-ish value as delivered by `response.json()`; only the shapes the
renderer can observe are distinguished. -/
inductive JValue
  | jInt (n : Int)
  | jStr (s : String)
  | jBool (b : Bool)
  | jNull
  deriving DecidableEq

/-- Python `str(v)` on a decoded JSON value. -/
def JValue.pyStr : JValue → String
  | .jInt n => toString n
  | .jStr s => s
  | .jBool b => if b then "True" else "False"
  | .jNull => "None"

/-- JSON rendering of a value (string escaping elided; no claim inspects
escaped content). -/
def JValue.jsonRepr : JValue → String
  | .jInt n => toString n
  | .jStr s => "\"" ++ s ++ "\""
  | .jBool b => if b then "true" else "false"
  | .jNull => "null"

/-- The decoded response body of one query execution.  Each record is an
ordered field-name/value mapping (Python dict, insertion ordered).  The
fields are optional because `display_result` reads every one of them with
`result.get(key, default)`; an absent `items` key is modelled as `[]`
(the `.get("items", [])` default makes the two indistinguishable to the
whole program). -/
structure PagedResult where
  items : List (List (String × JValue))
  totalResults : Option Int
  offset : Option Int
  hasMore : Option Bool
  count : Option Int
  deriving DecidableEq

/-- Serialization of a record, as `json.dumps` would emit it. -/
def recordJson (r : List (String × JValue)) : String :=
  "\x7b" ++ String.intercalate ", "
    (r.map (fun kv => "\"" ++ kv.1 ++ "\": " ++ kv.2.jsonRepr)) ++ "\x7d"

/-- Serialization of a whole result, as `json.dumps(result, indent=2)`
would (modulo layout: indentation is presentation-only and no claim
inspects it). -/
def jsonDump (r : PagedResult) : String :=
  let fields : List String :=
    ["\"items\": [" ++ String.intercalate ", " (r.items.map recordJson) ++ "]"]
    ++ (match r.totalResults with
        | some t => ["\"totalResults\": " ++ toString t]
        | none => [])
    ++ (match r.offset with
        | some o => ["\"offset\": " ++ toString o]
        | none => [])
    ++ (match r.hasMore with
        | some b => ["\"hasMore\": " ++ (if b then "true" else "false")]
        | none => [])
    ++ (match r.count with
        | some c => ["\"count\": " ++ toString c]
        | none => [])
  "\x7b" ++ String.intercalate ", " fields ++ "\x7d"

/-- One console print: a plain text line, a pretty-printed JSON blob, or
a rich table (headers plus rows of stringified cells). -/
inductive Output
  | text (s : String)
  | json (s : String)
  | table (headers : List String) (rows : List (List String))
  deriving DecidableEq

/-- The rows of the `show_help` table, verbatim from the source. -/
def helpRows : List (List String) :=
  [["\\q", "Quit"],
   ["\\f <file>", "Load and execute SQL from a file"],
   ["\\j", "Toggle JSON/table output"],
   ["\\fmt", "Format last query with sqlparse"],
   ["\\l <n>", "Set default LIMIT (\\l to clear)"],
   ["\\o <n>", "Set default OFFSET (\\o to clear)"],
   ["\\n", "Next page"],
   ["\\p", "Previous page"],
   ["\\h", "Show this help"],
   ["", ""],
   ["Alt+Enter", "Execute query"],
   ["Ctrl+X, E", "Open in $EDITOR"],
   ["Ctrl+D", "Quit"]]

/-- Column headers: key set of the first record (`list(items[0].keys())`);
empty when there is no record. -/
def tableHeaders (items : List (List (String × JValue))) : List String :=
  match items with
  | [] => []
  | r :: _ => r.map Prod.fst

/-- One cell: `str(row.get(k, ""))` — the stringified value, or the empty
string for a missing field. -/
def tableCell (row : List (String × JValue)) (k : String) : String :=
  match row.lookup k with
  | some v => v.pyStr
  | none => ""

/-- One row of stringified cells per record, in header order. -/
def tableRows (items : List (List (String × JValue))) : List (List String) :=
  let ks := tableHeaders items
  items.map (fun row => ks.map (tableCell row))

/-- The `parts` list built at the end of `display_result`: row count
first, then `offset …` when the offset is truthy, `… total` when the
total is truthy, and the more-available hint when `hasMore` holds. -/
def summaryParts (r : PagedResult) : List String :=
  let count := r.count.getD (Int.ofNat r.items.length)
  let offset := r.offset.getD 0
  let total := r.totalResults.getD 0
  (toString count ++ " rows") ::
    ((if offset ≠ 0 then ["offset " ++ toString offset] else [])
      ++ ((if total ≠ 0 then [toString total ++ " total"] else [])
        ++ (if r.hasMore.getD false then
              ["more available (\\n for next page)"] else [])))

/-- `" | ".join(parts)`. -/
def summaryLine (r : PagedResult) : String :=
  String.intercalate " | " (summaryParts r)

/-- The `display_result` helper.  In JSON mode the whole result is
printed and then the summary.  In table mode an empty `items` prints
`No results.` and returns early — before the summary; otherwise the
table is printed and then the summary. -/
def display_result (output_json : Bool) (result : PagedResult) : List Output :=
  if output_json then
    [Output.json (jsonDump result), Output.text (summaryLine result)]
  else
    match result.items with
    | [] => [Output.text "No results."]
    | _ :: _ =>
      [Output.table (tableHeaders result.items) (tableRows result.items),
       Output.text (summaryLine result)]

/-- Failure of one executor call, as `execute_query` can observe it:
`requests.exceptions.HTTPError` (carrying the status code, the reason
phrase, and the extracted response body), or any other exception
(connection failures, JSON decode failures, missing credentials), whose
`str()` is carried as `msg`. -/
inductive QueryError
  | httpStatus (code : Int) (reason : String) (body : String)
  | network (msg : String)
  | decode (msg : String)
  deriving DecidableEq

/-- Modelled from the `requests` collaborator: `raise_for_status` builds
the exception message as `"{code} Client Error: {reason} …"` for 4xx and
`"{code} Server Error: {reason} …"` for 5xx, so `str(e)` always carries
the status code. -/
def httpErrorMessage (code : Int) (reason : String) : String :=
  if 400 ≤ code ∧ code < 500 then
    toString code ++ " Client Error: " ++ reason
  else
    toString code ++ " Server Error: " ++ reason

/-- Failure of one `Path.read_text` call.  The source handles only
`FileNotFoundError`; `otherOsError` stands for every other exception a
read can raise (`PermissionError`, `IsADirectoryError`, decode errors),
which the source does not catch. -/
inductive FileError
  | fileNotFound
  | otherOsError
  deriving DecidableEq

/-- The external collaborators: the query executor
(`run_suiteql_query`, one authenticated POST) and the file system. -/
structure Env where
  exec : String → Option Int → Option Int → Except QueryError PagedResult
  readFile : String → Except FileError String

/-- The closure state of `interactive_repl`. -/
structure ReplState where
  output_json : Bool
  default_limit : Option Int
  default_offset : Option Int
  last_query : Option String
  deriving DecidableEq

/-- One recorded invocation of the executor. -/
structure ExecCall where
  query : String
  limit : Option Int
  offset : Option Int
  deriving DecidableEq

/-- Observable actions of one loop iteration. -/
inductive Effect
  | out (o : Output)
  | execCall (c : ExecCall)
  | fmtCall (q : String)
  | readCall (path : String)
  deriving DecidableEq

/-- The executor invocations among a list of effects, in order. -/
def execCalls : List Effect → List ExecCall
  | [] => []
  | Effect.execCall c :: es => c :: execCalls es
  | _ :: es => execCalls es

/-- The formatter invocations among a list of effects, in order. -/
def fmtCalls : List Effect → List String
  | [] => []
  | Effect.fmtCall q :: es => q :: fmtCalls es
  | _ :: es => fmtCalls es

/-- Modelled collaborator `sqlparse.format(q, reindent=True,
keyword_case="upper")`: its output is external text the core only
forwards; the invocation itself is what the core's contract tracks
(recorded as `Effect.fmtCall`). -/
def sqlparseFormat (q : String) : String := q

/-- The query-string parameters built by `run_suiteql_query` (its
`params` dict): `limit` and `offset` are each included exactly when the
corresponding argument is not `None` — including when the value is 0. -/
def queryParams (limit offset : Option Int) : List (String × Int) :=
  (match limit with | some l => [("limit", l)] | none => [])
  ++ (match offset with | some o => [("offset", o)] | none => [])

/-- The `execute_query` helper.  It first sets `last_query` to the
attempted query (before any network activity), resolves the effective
limit/offset (explicit argument wins, else the session default), then
calls the executor.  An `HTTPError` is reported with its message and,
when non-empty, the extracted response body; any other exception is
reported with its message; a success is rendered with `display_result`.
All failures are swallowed: the function always returns. -/
def execute_query (env : Env) (st : ReplState) (query : String)
    (limit : Option Int) (offset : Option Int) : ReplState × List Effect :=
  let st1 : ReplState := { st with last_query := some query }
  let lim : Option Int := match limit with
    | some l => some l
    | none => st1.default_limit
  let off : Option Int := match offset with
    | some o => some o
    | none => st1.default_offset
  match env.exec query lim off with
  | Except.error (QueryError.httpStatus code reason body) =>
    (st1, [Effect.execCall ⟨query, lim, off⟩,
           Effect.out (Output.text ("HTTP error: " ++ httpErrorMessage code reason))]
          ++ (if body = "" then [] else [Effect.out (Output.text body)]))
  | Except.error (QueryError.network msg) =>
    (st1, [Effect.execCall ⟨query, lim, off⟩,
           Effect.out (Output.text ("Error: " ++ msg))])
  | Except.error (QueryError.decode msg) =>
    (st1, [Effect.execCall ⟨query, lim, off⟩,
           Effect.out (Output.text ("Error: " ++ msg))])
  | Except.ok result =>
    (st1, Effect.execCall ⟨query, lim, off⟩ ::
          (display_result st1.output_json result).map Effect.out)

/-- Fate of the loop after one iteration: keep looping, leave via an
explicit quit / end-of-input, or die on an uncaught exception. -/
inductive Signal
  | cont
  | halt
  | crash
  deriving DecidableEq

/-- The meta-command dispatch chain of the loop body, branch for branch
in source order.  `text` is the already-stripped, non-empty input line.
Note the source-order subtleties this preserves: the `startswith("\\f")`
check precedes the `== "\\fmt"` check (making the latter unreachable),
and the `\\l`/`\\o` branches fire on any line with that two-character
prefix. -/
def dispatch (env : Env) (st : ReplState) (text : String) :
    ReplState × List Effect × Signal :=
  if text = "\\q" then
    (st, [Effect.out (Output.text "Bye!")], Signal.halt)
  else if text = "\\h" then
    (st, [Effect.out (Output.table ["Command", "Action"] helpRows)], Signal.cont)
  else if text = "\\j" then
    let oj := !st.output_json
    ({ st with output_json := oj },
     [Effect.out (Output.text ("Output mode: " ++ (if oj then "JSON" else "table")))],
     Signal.cont)
  else if pyStartsWith text "\\f" then
    match splitNone1 text with
    | [] | [_] =>
      (st, [Effect.out (Output.text "Usage: \\f <file>")], Signal.cont)
    | _ :: filepath :: _ =>
      match env.readFile filepath with
      | Except.error FileError.fileNotFound =>
        (st, [Effect.readCall filepath,
              Effect.out (Output.text ("File not found: " ++ filepath))],
         Signal.cont)
      | Except.error FileError.otherOsError =>
        (st, [Effect.readCall filepath], Signal.crash)
      | Except.ok contents =>
        let query := pyStrip contents
        let r := execute_query env st query none none
        (r.1, Effect.readCall filepath ::
              Effect.out (Output.text ("Loaded " ++ filepath)) :: r.2,
         Signal.cont)
  else if text = "\\fmt" then
    match st.last_query with
    | none =>
      (st, [Effect.out (Output.text "No previous query to format.")], Signal.cont)
    | some q =>
      if q = "" then
        (st, [Effect.out (Output.text "No previous query to format.")], Signal.cont)
      else
        (st, [Effect.fmtCall q, Effect.out (Output.text (sqlparseFormat q))],
         Signal.cont)
  else if pyStartsWith text "\\l" then
    match splitNone1 text with
    | [] | [_] =>
      ({ st with default_limit := none },
       [Effect.out (Output.text "Default LIMIT cleared.")], Signal.cont)
    | _ :: arg :: _ =>
      match pyInt? arg with
      | some n =>
        ({ st with default_limit := some n },
         [Effect.out (Output.text ("Default LIMIT: " ++ toString n))], Signal.cont)
      | none =>
        (st, [Effect.out (Output.text "Usage: \\l <number>")], Signal.cont)
  else if pyStartsWith text "\\o" then
    match splitNone1 text with
    | [] | [_] =>
      ({ st with default_offset := none },
       [Effect.out (Output.text "Default OFFSET cleared.")], Signal.cont)
    | _ :: arg :: _ =>
      match pyInt? arg with
      | some n =>
        ({ st with default_offset := some n },
         [Effect.out (Output.text ("Default OFFSET: " ++ toString n))], Signal.cont)
      | none =>
        (st, [Effect.out (Output.text "Usage: \\o <number>")], Signal.cont)
  else if text = "\\n" then
    match st.last_query with
    | none =>
      (st, [Effect.out (Output.text "No previous query to paginate.")], Signal.cont)
    | some q =>
      if q = "" then
        (st, [Effect.out (Output.text "No previous query to paginate.")], Signal.cont)
      else
        let step := pyOrInt st.default_limit 10
        let off2 := pyOrInt st.default_offset 0 + step
        let st2 := { st with default_offset := some off2 }
        let r := execute_query env st2 q none none
        (r.1, Effect.out (Output.text ("offset → " ++ toString off2)) :: r.2,
         Signal.cont)
  else if text = "\\p" then
    match st.last_query with
    | none =>
      (st, [Effect.out (Output.text "No previous query to paginate.")], Signal.cont)
    | some q =>
      if q = "" then
        (st, [Effect.out (Output.text "No previous query to paginate.")], Signal.cont)
      else
        let step := pyOrInt st.default_limit 10
        let off2 := max (pyOrInt st.default_offset 0 - step) 0
        let st2 := { st with default_offset := some off2 }
        let r := execute_query env st2 q none none
        (r.1, Effect.out (Output.text ("offset → " ++ toString off2)) :: r.2,
         Signal.cont)
  else if pyStartsWith text "\\" then
    (st, [Effect.out (Output.text ("Unknown command: " ++ text))], Signal.cont)
  else
    let r := execute_query env st text none none
    (r.1, r.2, Signal.cont)

/-- One observable event at the prompt: a line of input, or end-of-input
(`EOFError` on Ctrl+D) / `KeyboardInterrupt`, which the loop treats
identically. -/
inductive InputEvent
  | line (s : String)
  | endOfInput
  deriving DecidableEq

/-- One iteration of the `while True` loop: end-of-input says goodbye and
halts; otherwise the line is stripped, an empty line is skipped, and
anything else goes through the dispatch chain. -/
def replStep (env : Env) (st : ReplState) (ev : InputEvent) :
    ReplState × List Effect × Signal :=
  match ev with
  | InputEvent.endOfInput =>
    (st, [Effect.out (Output.text "Bye!")], Signal.halt)
  | InputEvent.line s =>
    let text := pyStrip s
    if text = "" then (st, [], Signal.cont)
    else dispatch env st text

/-- The loop, run over a finite prefix of input events.  A `halt` or
`crash` stops consuming input; an exhausted event list leaves the loop
still running (`cont`), awaiting more input. -/
def runRepl (env : Env) (st : ReplState) : List InputEvent → ReplState × List Effect × Signal
  | [] => (st, [], Signal.cont)
  | ev :: rest =>
    match replStep env st ev with
    | (st1, effs, Signal.cont) =>
      let r := runRepl env st1 rest
      (r.1, effs ++ r.2.1, r.2.2)
    | (st1, effs, Signal.halt) => (st1, effs, Signal.halt)
    | (st1, effs, Signal.crash) => (st1, effs, Signal.crash)

/-- REPL entry state: table output, CLI-provided limit/offset (both
`None` unless flags were given), no last query. -/
def initState (limit offset : Option Int) : ReplState :=
  { output_json := false, default_limit := limit,
    default_offset := offset, last_query := none }

/-- An environment whose executor always fails with a connection error
and whose file system has no files. -/
def envTriv : Env :=
  { exec := fun _ _ _ => Except.error (QueryError.network "connection refused"),
    readFile := fun _ => Except.error FileError.fileNotFound }

/-- An environment whose file reads fail with an uncaught OS error
(e.g. `PermissionError`). -/
def envPerm : Env :=
  { exec := fun _ _ _ => Except.error (QueryError.network "connection refused"),
    readFile := fun _ => Except.error FileError.otherOsError }

/-- The paged result of the spec's concrete scenario: one item mapping
x to 1, totalResults 1, offset 0, hasMore false, count 1. -/
def pr8 : PagedResult :=
  { items := [[("x", JValue.jInt 1)]], totalResults := some 1,
    offset := some 0, hasMore := some false, count := some 1 }

/-- An environment whose executor returns `pr8` for every call. -/
def env8 : Env :=
  { exec := fun _ _ _ => Except.ok pr8,
    readFile := fun _ => Except.error FileError.fileNotFound }

/-- An environment with a file of pure whitespace (stripping to the empty
query) and an executor that always fails. -/
def env9 : Env :=
  { exec := fun _ _ _ => Except.error (QueryError.network "connection refused"),
    readFile := fun _ => Except.ok "   " }

/-- An environment whose executor always fails with
`HttpStatusError\x7bcode:500, body:"oops"\x7d` (reason phrase as `requests`
reports it). -/
def envHttp : Env :=
  { exec := fun _ _ _ =>
      Except.error (QueryError.httpStatus 500 "Internal Server Error" "oops"),
    readFile := fun _ => Except.error FileError.fileNotFound }

/-- A session that has already executed a query. -/
def stWithQuery : ReplState :=
  { output_json := false, default_limit := none, default_offset := none,
    last_query := some "SELECT 1 FROM dual" }

/-- A session that has executed `SELECT 1` and has no cursors set. -/
def stC2 : ReplState :=
  { output_json := false, default_limit := none, default_offset := none,
    last_query := some "SELECT 1" }

/-- A fresh session with a default limit of 5. -/
def stLimit5 : ReplState :=
  { output_json := false, default_limit := some 5, default_offset := none,
    last_query := none }

/-- The session of the spec's concrete scenario:
`defaultLimit=5, defaultOffset=0`. -/
def st8 : ReplState :=
  { output_json := false, default_limit := some 5, default_offset := some 0,
    last_query := none }

/-- A session with a query executed and both cursors set. -/
def stC10 : ReplState :=
  { output_json := false, default_limit := some 5, default_offset := some 0,
    last_query := some "SELECT 1" }

/-- An empty result carrying non-zero pagination metadata. -/
def prEmpty : PagedResult :=
  { items := [], totalResults := some 7, offset := some 2,
    hasMore := some true, count := none }

/-- A one-row result with every summary component non-trivial. -/
def prSample : PagedResult :=
  { items := [[("a", JValue.jStr "v")]], totalResults := some 3,
    offset := some 2, hasMore := some true, count := some 1 }

/-- Gate on one `\l`/`\o` line delimiting the command sequences under
which the offset invariant holds: the argument (if any) must be plain
ASCII — the region where `pyInt?` coincides with Python `int()`
character for character — and non-negative whenever it parses.  A line
whose argument parses negative, or uses non-ASCII numerals the model
cannot follow, is outside the gate. -/
def argNonNeg (text : String) : Bool :=
  if pyStartsWith text "\\l" || pyStartsWith text "\\o" then
    match splitNone1 text with
    | _ :: arg :: _ =>
      arg.data.all (fun c => c.toNat < 128) &&
      (match pyInt? arg with
       | some k => decide (0 ≤ k)
       | none => true)
    | _ => true
  else true

/-- Lift of `argNonNeg` to input events. -/
def eventNonNeg (ev : InputEvent) : Bool :=
  match ev with
  | InputEvent.endOfInput => true
  | InputEvent.line s => argNonNeg (pyStrip s)

/-- Both optional session cursors, when set, are non-negative. -/
def stateNonNeg (st : ReplState) : Prop :=
  (∀ v, st.default_limit = some v → 0 ≤ v) ∧
  (∀ v, st.default_offset = some v → 0 ≤ v)

theorem pyStartsWith_iff {s pre : String} :
    pyStartsWith s pre = true ↔ pre.data <+: s.data := by
  simp [pyStartsWith]

theorem ne_of_startsWith {text pre q : String} (h : pyStartsWith text pre = true)
    (hq : pyStartsWith q pre = false) : text ≠ q := by
  intro he
  subst he
  rw [h] at hq
  cases hq

theorem startsWith_excl {text p1 p2 : String} (h : pyStartsWith text p1 = true)
    (hlen : p1.data.length = p2.data.length) (hne : p1.data ≠ p2.data) :
    pyStartsWith text p2 = false := by
  rw [pyStartsWith_iff] at h
  cases hp2 : pyStartsWith text p2 with
  | false => rfl
  | true =>
    rw [pyStartsWith_iff] at hp2
    rw [List.prefix_iff_eq_take] at h hp2
    exact absurd (h.trans (by rw [hlen, ← hp2])) hne

theorem startsWith_trans {text p1 p2 : String} (h : pyStartsWith text p2 = true)
    (hp : p1.data <+: p2.data) : pyStartsWith text p1 = true := by
  rw [pyStartsWith_iff] at h ⊢
  exact hp.trans h

theorem not_startsWith_of_not {text p1 p2 : String}
    (h : pyStartsWith text p1 = false) (hp : p1.data <+: p2.data) :
    pyStartsWith text p2 = false := by
  cases hp2 : pyStartsWith text p2 with
  | false => rfl
  | true => rw [startsWith_trans hp2 hp] at h; cases h

theorem ne_of_not_startsWith {text p q : String} (h : pyStartsWith text p = false)
    (hq : pyStartsWith q p = true) : text ≠ q := by
  intro he
  subst he
  rw [hq] at h
  cases h

theorem execute_query_fst (env : Env) (st : ReplState) (q : String)
    (l o : Option Int) :
    (execute_query env st q l o).1 = { st with last_query := some q } := by
  unfold execute_query
  dsimp only
  (repeat' split) <;> rfl

theorem execCalls_append (a b : List Effect) :
    execCalls (a ++ b) = execCalls a ++ execCalls b := by
  induction a with
  | nil => rfl
  | cons e es ih => cases e <;> simp [execCalls, ih]

theorem execCalls_map_out (l : List Output) :
    execCalls (l.map Effect.out) = [] := by
  induction l with
  | nil => rfl
  | cons o os ih => simp [execCalls, ih]

theorem execute_query_none_calls (env : Env) (st : ReplState) (q : String) :
    execCalls (execute_query env st q none none).2 =
      [⟨q, st.default_limit, st.default_offset⟩] := by
  unfold execute_query
  dsimp only
  (repeat' split) <;>
    simp [execCalls, execCalls_append, execCalls_map_out, apply_ite execCalls]

theorem update_offset_keep (st : ReplState) {q : String}
    (hlq : st.last_query = some q) (v : Int) :
    ({ st with default_offset := some v, last_query := some q } : ReplState)
      = { st with default_offset := some v } := by
  cases st
  simp_all

theorem dispatch_setLimit (env : Env) (st : ReplState) {text h0 arg : String}
    {n : Int} (hpre : pyStartsWith text "\\l" = true)
    (hsplit : splitNone1 text = [h0, arg]) (hn : pyInt? arg = some n) :
    dispatch env st text =
      ({ st with default_limit := some n },
       [Effect.out (Output.text ("Default LIMIT: " ++ toString n))],
       Signal.cont) := by
  have h1 : text ≠ "\\q" := ne_of_startsWith hpre (by decide)
  have h2 : text ≠ "\\h" := ne_of_startsWith hpre (by decide)
  have h3 : text ≠ "\\j" := ne_of_startsWith hpre (by decide)
  have h4 : pyStartsWith text "\\f" = false := startsWith_excl hpre (by decide) (by decide)
  have h5 : text ≠ "\\fmt" := ne_of_startsWith hpre (by decide)
  simp [dispatch, h1, h2, h3, h4, h5, hpre, hsplit, hn]

theorem dispatch_setLimit_clear (env : Env) (st : ReplState) {text h0 : String}
    (hpre : pyStartsWith text "\\l" = true) (hsplit : splitNone1 text = [h0]) :
    dispatch env st text =
      ({ st with default_limit := none },
       [Effect.out (Output.text "Default LIMIT cleared.")], Signal.cont) := by
  have h1 : text ≠ "\\q" := ne_of_startsWith hpre (by decide)
  have h2 : text ≠ "\\h" := ne_of_startsWith hpre (by decide)
  have h3 : text ≠ "\\j" := ne_of_startsWith hpre (by decide)
  have h4 : pyStartsWith text "\\f" = false := startsWith_excl hpre (by decide) (by decide)
  have h5 : text ≠ "\\fmt" := ne_of_startsWith hpre (by decide)
  simp [dispatch, h1, h2, h3, h4, h5, hpre, hsplit]

theorem dispatch_setOffset (env : Env) (st : ReplState) {text h0 arg : String}
    {n : Int} (hpre : pyStartsWith text "\\o" = true)
    (hsplit : splitNone1 text = [h0, arg]) (hn : pyInt? arg = some n) :
    dispatch env st text =
      ({ st with default_offset := some n },
       [Effect.out (Output.text ("Default OFFSET: " ++ toString n))],
       Signal.cont) := by
  have h1 : text ≠ "\\q" := ne_of_startsWith hpre (by decide)
  have h2 : text ≠ "\\h" := ne_of_startsWith hpre (by decide)
  have h3 : text ≠ "\\j" := ne_of_startsWith hpre (by decide)
  have h4 : pyStartsWith text "\\f" = false := startsWith_excl hpre (by decide) (by decide)
  have h5 : text ≠ "\\fmt" := ne_of_startsWith hpre (by decide)
  have h6 : pyStartsWith text "\\l" = false := startsWith_excl hpre (by decide) (by decide)
  simp [dispatch, h1, h2, h3, h4, h5, h6, hpre, hsplit, hn]

theorem dispatch_next (env : Env) (st : ReplState) {q : String}
    (hlq : st.last_query = some q) (hq : q ≠ "") :
    dispatch env st "\\n" =
      ((execute_query env
          { st with
              default_offset := some (pyOrInt st.default_offset 0 + pyOrInt st.default_limit 10) }
          q none none).1,
       Effect.out (Output.text ("offset → "
          ++ toString (pyOrInt st.default_offset 0 + pyOrInt st.default_limit 10)))
         :: (execute_query env
              { st with
                  default_offset := some (pyOrInt st.default_offset 0 + pyOrInt st.default_limit 10) }
              q none none).2,
       Signal.cont) := by
  unfold dispatch
  rw [if_neg (by decide), if_neg (by decide), if_neg (by decide)]
  rw [if_neg (by decide : ¬ (pyStartsWith "\\n" "\\f" = true))]
  rw [if_neg (by decide)]
  rw [if_neg (by decide : ¬ (pyStartsWith "\\n" "\\l" = true))]
  rw [if_neg (by decide : ¬ (pyStartsWith "\\n" "\\o" = true))]
  rw [if_pos rfl]
  rw [hlq]
  simp [hq]

theorem dispatch_prev (env : Env) (st : ReplState) {q : String}
    (hlq : st.last_query = some q) (hq : q ≠ "") :
    dispatch env st "\\p" =
      ((execute_query env
          { st with
              default_offset := some (max (pyOrInt st.default_offset 0 - pyOrInt st.default_limit 10) 0) }
          q none none).1,
       Effect.out (Output.text ("offset → "
          ++ toString (max (pyOrInt st.default_offset 0 - pyOrInt st.default_limit 10) 0)))
         :: (execute_query env
              { st with
                  default_offset := some (max (pyOrInt st.default_offset 0 - pyOrInt st.default_limit 10) 0) }
              q none none).2,
       Signal.cont) := by
  unfold dispatch
  rw [if_neg (by decide), if_neg (by decide), if_neg (by decide)]
  rw [if_neg (by decide : ¬ (pyStartsWith "\\p" "\\f" = true))]
  rw [if_neg (by decide)]
  rw [if_neg (by decide : ¬ (pyStartsWith "\\p" "\\l" = true))]
  rw [if_neg (by decide : ¬ (pyStartsWith "\\p" "\\o" = true))]
  rw [if_neg (by decide)]
  rw [if_pos rfl]
  rw [hlq]
  simp [hq]

theorem dispatch_next_noQuery (env : Env) (st : ReplState)
    (hlq : st.last_query = none ∨ st.last_query = some "") :
    dispatch env st "\\n" =
      (st, [Effect.out (Output.text "No previous query to paginate.")],
       Signal.cont) := by
  unfold dispatch
  rw [if_neg (by decide), if_neg (by decide), if_neg (by decide)]
  rw [if_neg (by decide : ¬ (pyStartsWith "\\n" "\\f" = true))]
  rw [if_neg (by decide)]
  rw [if_neg (by decide : ¬ (pyStartsWith "\\n" "\\l" = true))]
  rw [if_neg (by decide : ¬ (pyStartsWith "\\n" "\\o" = true))]
  rw [if_pos rfl]
  rcases hlq with h | h <;> (rw [h]; try simp)

theorem dispatch_prev_noQuery (env : Env) (st : ReplState)
    (hlq : st.last_query = none ∨ st.last_query = some "") :
    dispatch env st "\\p" =
      (st, [Effect.out (Output.text "No previous query to paginate.")],
       Signal.cont) := by
  unfold dispatch
  rw [if_neg (by decide), if_neg (by decide), if_neg (by decide)]
  rw [if_neg (by decide : ¬ (pyStartsWith "\\p" "\\f" = true))]
  rw [if_neg (by decide)]
  rw [if_neg (by decide : ¬ (pyStartsWith "\\p" "\\l" = true))]
  rw [if_neg (by decide : ¬ (pyStartsWith "\\p" "\\o" = true))]
  rw [if_neg (by decide)]
  rw [if_pos rfl]
  rcases hlq with h | h <;> (rw [h]; try simp)

theorem dispatch_rawQuery (env : Env) (st : ReplState) {text : String}
    (h : pyStartsWith text "\\" = false) :
    dispatch env st text =
      ((execute_query env st text none none).1,
       (execute_query env st text none none).2, Signal.cont) := by
  have h1 : text ≠ "\\q" := ne_of_not_startsWith h (by decide)
  have h2 : text ≠ "\\h" := ne_of_not_startsWith h (by decide)
  have h3 : text ≠ "\\j" := ne_of_not_startsWith h (by decide)
  have h4 : pyStartsWith text "\\f" = false := not_startsWith_of_not h (by decide)
  have h5 : text ≠ "\\fmt" := ne_of_not_startsWith h (by decide)
  have h6 : pyStartsWith text "\\l" = false := not_startsWith_of_not h (by decide)
  have h7 : pyStartsWith text "\\o" = false := not_startsWith_of_not h (by decide)
  have h8 : text ≠ "\\n" := ne_of_not_startsWith h (by decide)
  have h9 : text ≠ "\\p" := ne_of_not_startsWith h (by decide)
  simp [dispatch, h1, h2, h3, h4, h5, h6, h7, h8, h9, h]

theorem dispatch_unknown (env : Env) (st : ReplState) {text : String}
    (h : pyStartsWith text "\\" = true)
    (h1 : text ≠ "\\q") (h2 : text ≠ "\\h") (h3 : text ≠ "\\j")
    (h4 : pyStartsWith text "\\f" = false) (h5 : text ≠ "\\fmt")
    (h6 : pyStartsWith text "\\l" = false)
    (h7 : pyStartsWith text "\\o" = false)
    (h8 : text ≠ "\\n") (h9 : text ≠ "\\p") :
    dispatch env st text =
      (st, [Effect.out (Output.text ("Unknown command: " ++ text))],
       Signal.cont) := by
  simp [dispatch, h1, h2, h3, h4, h5, h6, h7, h8, h9, h]

/-- Case-analysis principle for `dispatch`, one case per branch of the
source's `if`/`elif` chain, each supplied with the accumulated
conditions that route an input into it. -/
theorem dispatch_cases (env : Env) (st : ReplState) (text : String)
    (P : ReplState × List Effect × Signal → Prop)
    (hquit : text = "\\q" →
      P (st, [Effect.out (Output.text "Bye!")], Signal.halt))
    (hhelp : text ≠ "\\q" → text = "\\h" →
      P (st, [Effect.out (Output.table ["Command", "Action"] helpRows)],
         Signal.cont))
    (hjson : text ≠ "\\q" → text ≠ "\\h" → text = "\\j" →
      P ({ st with output_json := !st.output_json },
         [Effect.out (Output.text ("Output mode: "
            ++ (if !st.output_json then "JSON" else "table")))], Signal.cont))
    (hfile : text ≠ "\\q" → text ≠ "\\h" → text ≠ "\\j" →
      pyStartsWith text "\\f" = true →
      P (match splitNone1 text with
         | [] | [_] =>
           (st, [Effect.out (Output.text "Usage: \\f <file>")], Signal.cont)
         | _ :: filepath :: _ =>
           match env.readFile filepath with
           | Except.error FileError.fileNotFound =>
             (st, [Effect.readCall filepath,
                   Effect.out (Output.text ("File not found: " ++ filepath))],
              Signal.cont)
           | Except.error FileError.otherOsError =>
             (st, [Effect.readCall filepath], Signal.crash)
           | Except.ok contents =>
             ((execute_query env st (pyStrip contents) none none).1,
              Effect.readCall filepath ::
                Effect.out (Output.text ("Loaded " ++ filepath)) ::
                  (execute_query env st (pyStrip contents) none none).2,
              Signal.cont)))
    (hfmt : text ≠ "\\q" → text ≠ "\\h" → text ≠ "\\j" →
      pyStartsWith text "\\f" = false → text = "\\fmt" →
      P (match st.last_query with
         | none =>
           (st, [Effect.out (Output.text "No previous query to format.")],
            Signal.cont)
         | some q =>
           if q = "" then
             (st, [Effect.out (Output.text "No previous query to format.")],
              Signal.cont)
           else
             (st, [Effect.fmtCall q, Effect.out (Output.text (sqlparseFormat q))],
              Signal.cont)))
    (hlimit : text ≠ "\\q" → text ≠ "\\h" → text ≠ "\\j" →
      pyStartsWith text "\\f" = false → text ≠ "\\fmt" →
      pyStartsWith text "\\l" = true →
      P (match splitNone1 text with
         | [] | [_] =>
           ({ st with default_limit := none },
            [Effect.out (Output.text "Default LIMIT cleared.")], Signal.cont)
         | _ :: arg :: _ =>
           match pyInt? arg with
           | some n =>
             ({ st with default_limit := some n },
              [Effect.out (Output.text ("Default LIMIT: " ++ toString n))],
              Signal.cont)
           | none =>
             (st, [Effect.out (Output.text "Usage: \\l <number>")], Signal.cont)))
    (hoffset : text ≠ "\\q" → text ≠ "\\h" → text ≠ "\\j" →
      pyStartsWith text "\\f" = false → text ≠ "\\fmt" →
      pyStartsWith text "\\l" = false → pyStartsWith text "\\o" = true →
      P (match splitNone1 text with
         | [] | [_] =>
           ({ st with default_offset := none },
            [Effect.out (Output.text "Default OFFSET cleared.")], Signal.cont)
         | _ :: arg :: _ =>
           match pyInt? arg with
           | some n =>
             ({ st with default_offset := some n },
              [Effect.out (Output.text ("Default OFFSET: " ++ toString n))],
              Signal.cont)
           | none =>
             (st, [Effect.out (Output.text "Usage: \\o <number>")], Signal.cont)))
    (hnext : text ≠ "\\q" → text ≠ "\\h" → text ≠ "\\j" →
      pyStartsWith text "\\f" = false → text ≠ "\\fmt" →
      pyStartsWith text "\\l" = false → pyStartsWith text "\\o" = false →
      text = "\\n" →
      P (match st.last_query with
         | none =>
           (st, [Effect.out (Output.text "No previous query to paginate.")],
            Signal.cont)
         | some q =>
           if q = "" then
             (st, [Effect.out (Output.text "No previous query to paginate.")],
              Signal.cont)
           else
             ((execute_query env
                 { st with
                     default_offset := some (pyOrInt st.default_offset 0 + pyOrInt st.default_limit 10) }
                 q none none).1,
              Effect.out (Output.text ("offset → "
                 ++ toString (pyOrInt st.default_offset 0 + pyOrInt st.default_limit 10)))
                :: (execute_query env
                     { st with
                         default_offset := some (pyOrInt st.default_offset 0 + pyOrInt st.default_limit 10) }
                     q none none).2,
              Signal.cont)))
    (hprev : text ≠ "\\q" → text ≠ "\\h" → text ≠ "\\j" →
      pyStartsWith text "\\f" = false → text ≠ "\\fmt" →
      pyStartsWith text "\\l" = false → pyStartsWith text "\\o" = false →
      text ≠ "\\n" → text = "\\p" →
      P (match st.last_query with
         | none =>
           (st, [Effect.out (Output.text "No previous query to paginate.")],
            Signal.cont)
         | some q =>
           if q = "" then
             (st, [Effect.out (Output.text "No previous query to paginate.")],
              Signal.cont)
           else
             ((execute_query env
                 { st with
                     default_offset := some (max (pyOrInt st.default_offset 0 - pyOrInt st.default_limit 10) 0) }
                 q none none).1,
              Effect.out (Output.text ("offset → "
                 ++ toString (max (pyOrInt st.default_offset 0 - pyOrInt st.default_limit 10) 0)))
                :: (execute_query env
                     { st with
                         default_offset := some (max (pyOrInt st.default_offset 0 - pyOrInt st.default_limit 10) 0) }
                     q none none).2,
              Signal.cont)))
    (hunknown : text ≠ "\\q" → text ≠ "\\h" → text ≠ "\\j" →
      pyStartsWith text "\\f" = false → text ≠ "\\fmt" →
      pyStartsWith text "\\l" = false → pyStartsWith text "\\o" = false →
      text ≠ "\\n" → text ≠ "\\p" → pyStartsWith text "\\" = true →
      P (st, [Effect.out (Output.text ("Unknown command: " ++ text))],
         Signal.cont))
    (hraw : text ≠ "\\q" → text ≠ "\\h" → text ≠ "\\j" →
      pyStartsWith text "\\f" = false → text ≠ "\\fmt" →
      pyStartsWith text "\\l" = false → pyStartsWith text "\\o" = false →
      text ≠ "\\n" → text ≠ "\\p" → pyStartsWith text "\\" = false →
      P ((execute_query env st text none none).1,
         (execute_query env st text none none).2, Signal.cont)) :
    P (dispatch env st text) := by
  unfold dispatch
  by_cases c1 : text = "\\q"
  · rw [if_pos c1]; exact hquit c1
  rw [if_neg c1]
  by_cases c2 : text = "\\h"
  · rw [if_pos c2]; exact hhelp c1 c2
  rw [if_neg c2]
  by_cases c3 : text = "\\j"
  · rw [if_pos c3]; exact hjson c1 c2 c3
  rw [if_neg c3]
  by_cases c4 : pyStartsWith text "\\f" = true
  · rw [if_pos c4]; exact hfile c1 c2 c3 c4
  rw [if_neg c4]
  rw [Bool.not_eq_true] at c4
  by_cases c5 : text = "\\fmt"
  · rw [if_pos c5]; exact hfmt c1 c2 c3 c4 c5
  rw [if_neg c5]
  by_cases c6 : pyStartsWith text "\\l" = true
  · rw [if_pos c6]; exact hlimit c1 c2 c3 c4 c5 c6
  rw [if_neg c6]
  rw [Bool.not_eq_true] at c6
  by_cases c7 : pyStartsWith text "\\o" = true
  · rw [if_pos c7]; exact hoffset c1 c2 c3 c4 c5 c6 c7
  rw [if_neg c7]
  rw [Bool.not_eq_true] at c7
  by_cases c8 : text = "\\n"
  · rw [if_pos c8]; exact hnext c1 c2 c3 c4 c5 c6 c7 c8
  rw [if_neg c8]
  by_cases c9 : text = "\\p"
  · rw [if_pos c9]; exact hprev c1 c2 c3 c4 c5 c6 c7 c8 c9
  rw [if_neg c9]
  by_cases c10 : pyStartsWith text "\\" = true
  · rw [if_pos c10]; exact hunknown c1 c2 c3 c4 c5 c6 c7 c8 c9 c10
  rw [if_neg c10]
  rw [Bool.not_eq_true] at c10
  exact hraw c1 c2 c3 c4 c5 c6 c7 c8 c9 c10

theorem dispatch_signal (env : Env) (st : ReplState) (text : String)
    (hperm : ∀ p, env.readFile p ≠ Except.error FileError.otherOsError) :
    ((dispatch env st text).2.2 = Signal.halt ↔ text = "\\q") ∧
    (dispatch env st text).2.2 ≠ Signal.crash := by
  refine dispatch_cases env st text
    (fun r => (r.2.2 = Signal.halt ↔ text = "\\q") ∧ r.2.2 ≠ Signal.crash)
    ?_ ?_ ?_ ?_ ?_ ?_ ?_ ?_ ?_ ?_ ?_ <;>
      (intros; repeat' split) <;> simp_all

theorem dispatch_lastquery (env : Env) (st : ReplState) (text : String) :
    ((dispatch env st text).1.last_query = st.last_query ∧
      execCalls (dispatch env st text).2.1 = []) ∨
    (((dispatch env st text).1.last_query).isSome = true ∧
      execCalls (dispatch env st text).2.1 ≠ []) := by
  refine dispatch_cases env st text
    (fun r => (r.1.last_query = st.last_query ∧ execCalls r.2.1 = []) ∨
      ((r.1.last_query).isSome = true ∧ execCalls r.2.1 ≠ []))
    ?_ ?_ ?_ ?_ ?_ ?_ ?_ ?_ ?_ ?_ ?_ <;>
      (intros; repeat' split) <;>
      simp_all [execCalls, execute_query_fst, execute_query_none_calls]

theorem lastquery_isSome_dispatch (env : Env) (st : ReplState) (text : String)
    (h : (st.last_query).isSome = true) :
    ((dispatch env st text).1.last_query).isSome = true := by
  rcases dispatch_lastquery env st text with ⟨he, _⟩ | ⟨hs, _⟩
  · rw [he]; exact h
  · exact hs

theorem pyOrInt_nonneg {o : Option Int} {d : Int}
    (ho : ∀ v, o = some v → 0 ≤ v) (hd : 0 ≤ d) : 0 ≤ pyOrInt o d := by
  cases o with
  | none => exact hd
  | some n =>
    unfold pyOrInt
    by_cases hn : n = 0
    · simp [hn, hd]
    · simp [hn]
      exact ho n rfl

theorem dispatch_nonNeg (env : Env) (st : ReplState) (text : String)
    (hst : stateNonNeg st) (hev : argNonNeg text = true) :
    stateNonNeg (dispatch env st text).1 := by
  refine dispatch_cases env st text (fun r => stateNonNeg r.1)
    ?_ ?_ ?_ ?_ ?_ ?_ ?_ ?_ ?_ ?_ ?_
  · intro _; exact hst
  · intro _ _; exact hst
  · intro _ _ _; exact hst
  · intro _ _ _ _
    repeat' split
    · exact hst
    · exact hst
    · exact hst
    · exact hst
    · rw [execute_query_fst]; exact hst
  · intro _ _ _ _ _
    (repeat' split) <;> exact hst
  · intro _ _ _ _ _ c6
    split
    · exact ⟨fun v hv => Option.noConfusion hv, hst.2⟩
    · exact ⟨fun v hv => Option.noConfusion hv, hst.2⟩
    next h0 arg tail heq =>
      split
      next n hn =>
        have hn0 : 0 ≤ n := by
          unfold argNonNeg at hev
          rw [if_pos (by simp [c6])] at hev
          rw [heq] at hev
          simp [hn] at hev
          exact hev.2
        refine ⟨fun v hv => ?_, hst.2⟩
        injection hv with h
        rw [← h]
        exact hn0
      next hn => exact hst
  · intro _ _ _ _ _ _ c7
    split
    · exact ⟨hst.1, fun v hv => Option.noConfusion hv⟩
    · exact ⟨hst.1, fun v hv => Option.noConfusion hv⟩
    next h0 arg tail heq =>
      split
      next n hn =>
        have hn0 : 0 ≤ n := by
          unfold argNonNeg at hev
          rw [if_pos (by simp [c7])] at hev
          rw [heq] at hev
          simp [hn] at hev
          exact hev.2
        refine ⟨hst.1, fun v hv => ?_⟩
        injection hv with h
        rw [← h]
        exact hn0
      next hn => exact hst
  · intro _ _ _ _ _ _ _ _
    repeat' split
    · exact hst
    · exact hst
    · rw [execute_query_fst]
      refine ⟨hst.1, fun v hv => ?_⟩
      injection hv with h
      rw [← h]
      exact add_nonneg (pyOrInt_nonneg hst.2 le_rfl)
        (pyOrInt_nonneg hst.1 (by norm_num))
  · intro _ _ _ _ _ _ _ _ _
    repeat' split
    · exact hst
    · exact hst
    · rw [execute_query_fst]
      refine ⟨hst.1, fun v hv => ?_⟩
      injection hv with h
      rw [← h]
      exact le_max_right _ 0
  · intro _ _ _ _ _ _ _ _ _ _; exact hst
  · intro _ _ _ _ _ _ _ _ _ _
    rw [execute_query_fst]
    exact hst

theorem replStep_signal (env : Env) (st : ReplState) (ev : InputEvent)
    (hperm : ∀ p, env.readFile p ≠ Except.error FileError.otherOsError) :
    ((replStep env st ev).2.2 = Signal.halt ↔
      (ev = InputEvent.endOfInput ∨
        ∃ s, ev = InputEvent.line s ∧ pyStrip s = "\\q")) ∧
    (replStep env st ev).2.2 ≠ Signal.crash := by
  cases ev with
  | endOfInput => simp [replStep]
  | line s =>
    unfold replStep
    dsimp only
    by_cases he : pyStrip s = ""
    · rw [if_pos he]
      constructor
      · simp [he]
      · simp
    · rw [if_neg he]
      have h := dispatch_signal env st (pyStrip s) hperm
      refine ⟨?_, h.2⟩
      rw [h.1]
      simp

theorem replStep_lastquery (env : Env) (st : ReplState) (ev : InputEvent) :
    ((replStep env st ev).1.last_query = st.last_query ∧
      execCalls (replStep env st ev).2.1 = []) ∨
    (((replStep env st ev).1.last_query).isSome = true ∧
      execCalls (replStep env st ev).2.1 ≠ []) := by
  cases ev with
  | endOfInput => left; exact ⟨rfl, rfl⟩
  | line s =>
    unfold replStep
    dsimp only
    by_cases he : pyStrip s = ""
    · rw [if_pos he]; left; exact ⟨rfl, rfl⟩
    · rw [if_neg he]; exact dispatch_lastquery env st (pyStrip s)

theorem runRepl_lastquery (env : Env) (evs : List InputEvent) :
    ∀ st : ReplState,
      (((runRepl env st evs).1.last_query).isSome = true ↔
        ((st.last_query).isSome = true ∨
          execCalls (runRepl env st evs).2.1 ≠ [])) := by
  induction evs with
  | nil => intro st; simp [runRepl, execCalls]
  | cons ev rest ih =>
    intro st
    have hstep := replStep_lastquery env st ev
    unfold runRepl
    rcases h : replStep env st ev with ⟨st1, effs, sig⟩
    rw [h] at hstep
    cases sig with
    | cont =>
      dsimp only
      rcases hstep with ⟨hlq, hc⟩ | ⟨hs, hc⟩
      · rw [ih st1, hlq]
        simp [execCalls_append, hc]
      · have hfin : (((runRepl env st1 rest).1).last_query).isSome = true :=
          (ih st1).mpr (Or.inl hs)
        simp [hfin, execCalls_append, hc]
    | halt =>
      dsimp only
      rcases hstep with ⟨hlq, hc⟩ | ⟨hs, hc⟩
      · dsimp only at hlq hc
        rw [hlq]
        simp [hc]
      · simp [hs, hc]
    | crash =>
      dsimp only
      rcases hstep with ⟨hlq, hc⟩ | ⟨hs, hc⟩
      · dsimp only at hlq hc
        rw [hlq]
        simp [hc]
      · simp [hs, hc]

theorem replStep_nonNeg (env : Env) (st : ReplState) (ev : InputEvent)
    (hst : stateNonNeg st) (hev : eventNonNeg ev = true) :
    stateNonNeg (replStep env st ev).1 := by
  cases ev with
  | endOfInput => exact hst
  | line s =>
    unfold replStep
    dsimp only
    by_cases he : pyStrip s = ""
    · rw [if_pos he]; exact hst
    · rw [if_neg he]
      exact dispatch_nonNeg env st (pyStrip s) hst (by simpa [eventNonNeg] using hev)

theorem runRepl_nonNeg (env : Env) (evs : List InputEvent) :
    ∀ st : ReplState, stateNonNeg st →
      (∀ ev ∈ evs, eventNonNeg ev = true) →
      stateNonNeg (runRepl env st evs).1 := by
  induction evs with
  | nil => intro st h _; exact h
  | cons ev rest ih =>
    intro st hst hev
    unfold runRepl
    rcases h : replStep env st ev with ⟨st1, effs, sig⟩
    have h1 : stateNonNeg st1 := by
      have := replStep_nonNeg env st ev hst (hev ev (by simp))
      rwa [h] at this
    cases sig with
    | cont =>
      dsimp only
      exact ih st1 h1 (fun e he => hev e (by simp [he]))
    | halt => exact h1
    | crash => exact h1

theorem pyOrInt_some_zero (m : Int) : pyOrInt (some m) 0 = m := by
  by_cases hm : m = 0 <;> simp [pyOrInt, hm]

/-- C1: dispatching the `\fmt` (format-last) meta-command never reaches the
format branch: because the `startswith("\\f")` load-file check precedes the
`== "\\fmt"` check, the line `\fmt` is treated as a `\f` with a missing
argument and reports `Usage: \f <file>` — both in a fresh session (where
the spec expects a state error) and in a session with a previous query
(where the spec expects a pretty-print); no formatting call is ever made. -/
theorem C1_fmt_shadowed :
    dispatch envTriv (initState none none) "\\fmt" =
      (initState none none, [Effect.out (Output.text "Usage: \\f <file>")],
       Signal.cont) ∧
    dispatch envTriv stWithQuery "\\fmt" =
      (stWithQuery, [Effect.out (Output.text "Usage: \\f <file>")],
       Signal.cont) ∧
    fmtCalls (dispatch envTriv (initState none none) "\\fmt").2.1 = [] ∧
    fmtCalls (dispatch envTriv stWithQuery "\\fmt").2.1 = [] := by
  decide

/-- C2 (counterexample): in a session that has executed `SELECT 1`, the
sequence `\l 0`, `\o 3`, `\n` produces offset 13, not the claimed
`m + n = 3`: a limit of 0 is falsy in `default_limit or 10`, so the step
is 10. -/
theorem C2_counterexample :
    ((dispatch envTriv
        ((dispatch envTriv ((dispatch envTriv stC2 "\\l 0").1) "\\o 3").1)
        "\\n").1).default_offset ≠ some 3 ∧
    ((dispatch envTriv
        ((dispatch envTriv ((dispatch envTriv stC2 "\\l 0").1) "\\o 3").1)
        "\\n").1).default_offset = some 13 := by
  decide

/-- C2 (amended): in a session with a non-empty last query, after any
`set-limit` line parsing to `n ≠ 0` followed by any `set-offset` line
parsing to `m`, `next-page` yields effective offset `m + n` (both in the
session state and in the executor call, which also carries limit `n`) and
`prev-page` yields `max (m - n) 0`; after a bare `\l` (clearing the limit)
followed by the `set-offset` line, the step is 10: `next-page` yields
`m + 10` and `prev-page` yields `max (m - 10) 0`.  (When the limit is set
to 0 the step is also 10 — the Python-falsiness behaviour witnessed by the
counterexample.) -/
theorem C2_pagination (env : Env) (st : ReplState)
    (q t1 a1 sn t2 a2 sm t0 a0 : String) (n m : Int)
    (hq : st.last_query = some q) (hq0 : q ≠ "") (hn0 : n ≠ 0)
    (h1 : pyStartsWith t1 "\\l" = true)
    (h1s : splitNone1 t1 = [a1, sn]) (h1n : pyInt? sn = some n)
    (h2 : pyStartsWith t2 "\\o" = true)
    (h2s : splitNone1 t2 = [a2, sm]) (h2n : pyInt? sm = some m)
    (h0 : pyStartsWith t0 "\\l" = true) (h0s : splitNone1 t0 = [a0]) :
    ((dispatch env
        ((dispatch env ((dispatch env st t1).1) t2).1) "\\n").1).default_offset
      = some (m + n) ∧
    execCalls ((dispatch env
        ((dispatch env ((dispatch env st t1).1) t2).1) "\\n").2.1)
      = [⟨q, some n, some (m + n)⟩] ∧
    ((dispatch env
        ((dispatch env ((dispatch env st t1).1) t2).1) "\\p").1).default_offset
      = some (max (m - n) 0) ∧
    execCalls ((dispatch env
        ((dispatch env ((dispatch env st t1).1) t2).1) "\\p").2.1)
      = [⟨q, some n, some (max (m - n) 0)⟩] ∧
    ((dispatch env
        ((dispatch env ((dispatch env st t0).1) t2).1) "\\n").1).default_offset
      = some (m + 10) ∧
    ((dispatch env
        ((dispatch env ((dispatch env st t0).1) t2).1) "\\p").1).default_offset
      = some (max (m - 10) 0) := by
  have e1 : (dispatch env st t1).1 = { st with default_limit := some n } := by
    rw [dispatch_setLimit env st h1 h1s h1n]
  have e2 : (dispatch env ({ st with default_limit := some n } : ReplState) t2).1
      = { st with default_limit := some n, default_offset := some m } := by
    rw [dispatch_setOffset env _ h2 h2s h2n]
  have e0 : (dispatch env st t0).1 = { st with default_limit := none } := by
    rw [dispatch_setLimit_clear env st h0 h0s]
  have e02 : (dispatch env ({ st with default_limit := none } : ReplState) t2).1
      = { st with default_limit := none, default_offset := some m } := by
    rw [dispatch_setOffset env _ h2 h2s h2n]
  have hq2 : ({ st with default_limit := some n, default_offset := some m }
      : ReplState).last_query = some q := hq
  have hq02 : ({ st with default_limit := none, default_offset := some m }
      : ReplState).last_query = some q := hq
  have hnext := dispatch_next env
    ({ st with default_limit := some n, default_offset := some m }) hq2 hq0
  have hprev := dispatch_prev env
    ({ st with default_limit := some n, default_offset := some m }) hq2 hq0
  have hnext0 := dispatch_next env
    ({ st with default_limit := none, default_offset := some m }) hq02 hq0
  have hprev0 := dispatch_prev env
    ({ st with default_limit := none, default_offset := some m }) hq02 hq0
  refine ⟨?_, ?_, ?_, ?_, ?_, ?_⟩
  · rw [e1, e2, hnext, execute_query_fst]
    simp [pyOrInt_some_zero, pyOrInt, hn0]
    omega
  · rw [e1, e2, hnext]
    simp [execCalls, execute_query_none_calls, pyOrInt_some_zero, pyOrInt, hn0]
    omega
  · rw [e1, e2, hprev, execute_query_fst]
    simp [pyOrInt_some_zero, pyOrInt, hn0]
    split_ifs with hm <;> simp [hm]
  · rw [e1, e2, hprev]
    simp [execCalls, execute_query_none_calls, pyOrInt_some_zero, pyOrInt, hn0]
    split_ifs with hm <;> simp [hm]
  · rw [e0, e02, hnext0, execute_query_fst]
    simp [pyOrInt_some_zero, pyOrInt]
    omega
  · rw [e0, e02, hprev0, execute_query_fst]
    simp [pyOrInt_some_zero, pyOrInt]
    split_ifs with hm <;> simp [hm]

/-- C2 (witness): with `\l 5` then `\o 3` in a session that has executed
`SELECT 1`, `next-page` produces offset 8 and calls the executor with
limit 5, offset 8. -/
theorem C2_pagination_witness :
    ((dispatch envTriv
        ((dispatch envTriv ((dispatch envTriv stC2 "\\l 5").1) "\\o 3").1)
        "\\n").1).default_offset = some 8 ∧
    execCalls ((dispatch envTriv
        ((dispatch envTriv ((dispatch envTriv stC2 "\\l 5").1) "\\o 3").1)
        "\\n").2.1) = [⟨"SELECT 1", some 5, some 8⟩] := by
  have h := C2_pagination envTriv stC2 "SELECT 1" "\\l 5" "\\l" "5"
    "\\o 3" "\\o" "3" "\\l" "\\l" 5 3
    (by decide) (by decide) (by decide) (by decide) (by decide) (by decide)
    (by decide) (by decide) (by decide) (by decide) (by decide)
  exact ⟨h.1, h.2.1⟩

/-- C3 (counterexample): the single command `\o -5` from a fresh session
stores `defaultOffset = -5`, a reachable negative value. -/
theorem C3_counterexample :
    ((runRepl envTriv (initState none none)
        [InputEvent.line "\\o -5"]).1).default_offset = some (-5) ∧
    ¬ (0 : Int) ≤ -5 := by
  decide

/-- C3 (amended): along any run whose initial limit/offset are
non-negative-or-unset and whose `set-limit`/`set-offset` arguments are
plain ASCII (the region where the modelled `int()` is exact, underscore
grouping included) and non-negative whenever they parse, `defaultOffset`
(when set) stays non-negative; and whenever `prev-page` actually steps (a
non-empty last query), the offset it produces is clamped at zero for
every starting offset and every step. -/
theorem C3_offset_invariant :
    (∀ (env : Env) (st0 : ReplState) (evs : List InputEvent),
       stateNonNeg st0 → (∀ ev ∈ evs, eventNonNeg ev = true) →
       ∀ v, ((runRepl env st0 evs).1).default_offset = some v → 0 ≤ v) ∧
    (∀ (env : Env) (st : ReplState) (q : String),
       st.last_query = some q → q ≠ "" →
       ∀ v, ((dispatch env st "\\p").1).default_offset = some v → 0 ≤ v) := by
  constructor
  · intro env st0 evs h0 hev v hv
    exact (runRepl_nonNeg env evs st0 h0 hev).2 v hv
  · intro env st q hlq hq v hv
    rw [dispatch_prev env st hlq hq, execute_query_fst] at hv
    simp only at hv
    injection hv with h
    rw [← h]
    exact le_max_right _ 0

/-- C3 (witness): after `\o 5`, `\l 2`, `\n` from a fresh session the
offset is set and non-negative (it is 7). -/
theorem C3_offset_invariant_witness :
    (0 : Int) ≤ 7 ∧
    ((runRepl envTriv (initState none none)
        [InputEvent.line "\\o 5", InputEvent.line "SELECT 1",
         InputEvent.line "\\l 2", InputEvent.line "\\n"]).1).default_offset
      = some 7 := by
  refine ⟨C3_offset_invariant.1 envTriv (initState none none)
    [InputEvent.line "\\o 5", InputEvent.line "SELECT 1",
     InputEvent.line "\\l 2", InputEvent.line "\\n"]
    ⟨fun v h => Option.noConfusion h, fun v h => Option.noConfusion h⟩
    (by decide) 7 (by decide), by decide⟩

/-- C4 (counterexample): `\lx` starts with the marker and is not a
recognized meta-command, yet it is routed into the `\l` branch by prefix
matching: it clears `defaultLimit` (changing the state) and is not
reported as an unknown command. -/
theorem C4_counterexample :
    (dispatch envTriv stLimit5 "\\lx").1 ≠ stLimit5 ∧
    Effect.out (Output.text ("Unknown command: " ++ "\\lx"))
      ∉ (dispatch envTriv stLimit5 "\\lx").2.1 ∧
    (dispatch envTriv stLimit5 "\\lx").1.default_limit = none := by
  decide

/-- C4 (amended): a marker-prefixed line that is none of the exact
commands and does not carry the `\f`, `\l` or `\o` prefix (lines with
those prefixes are captured by the load-file/set-limit/set-offset branches
even when malformed) is reported as an unknown command and leaves all four
session fields unchanged. -/
theorem C4_unknown_frame (env : Env) (st : ReplState) (text : String)
    (h : pyStartsWith text "\\" = true)
    (h1 : text ≠ "\\q") (h2 : text ≠ "\\h") (h3 : text ≠ "\\j")
    (h4 : pyStartsWith text "\\f" = false) (h5 : text ≠ "\\fmt")
    (h6 : pyStartsWith text "\\l" = false)
    (h7 : pyStartsWith text "\\o" = false)
    (h8 : text ≠ "\\n") (h9 : text ≠ "\\p") :
    dispatch env st text =
      (st, [Effect.out (Output.text ("Unknown command: " ++ text))],
       Signal.cont) :=
  dispatch_unknown env st h h1 h2 h3 h4 h5 h6 h7 h8 h9

/-- C4 (witness): `\z` is reported unknown and the state is untouched. -/
theorem C4_unknown_frame_witness :
    dispatch envTriv stLimit5 "\\z" =
      (stLimit5, [Effect.out (Output.text ("Unknown command: " ++ "\\z"))],
       Signal.cont) :=
  C4_unknown_frame envTriv stLimit5 "\\z" (by decide) (by decide) (by decide)
    (by decide) (by decide) (by decide) (by decide) (by decide) (by decide)
    (by decide)

/-- C5: for every raw query line (non-marker text) and every executor
failure, the raw-query path sets `lastQuery` to the attempted query before
the call, records exactly one executor invocation with the session
defaults, keeps the loop running, and reports the failure: an HTTP error
with a message carrying the status code plus the response body when
non-empty, any other failure with its message. -/
theorem C5_error_handling (env : Env) (st : ReplState) (query : String)
    (err : QueryError) (hpre : pyStartsWith query "\\" = false)
    (hexec : env.exec query st.default_limit st.default_offset
      = Except.error err) :
    (dispatch env st query).1 = { st with last_query := some query } ∧
    (dispatch env st query).2.2 = Signal.cont ∧
    execCalls (dispatch env st query).2.1 =
      [⟨query, st.default_limit, st.default_offset⟩] ∧
    (match err with
     | QueryError.httpStatus code reason body =>
       Effect.out (Output.text ("HTTP error: " ++ httpErrorMessage code reason))
           ∈ (dispatch env st query).2.1 ∧
         (body ≠ "" → Effect.out (Output.text body) ∈ (dispatch env st query).2.1)
     | QueryError.network msg =>
       Effect.out (Output.text ("Error: " ++ msg)) ∈ (dispatch env st query).2.1
     | QueryError.decode msg =>
       Effect.out (Output.text ("Error: " ++ msg)) ∈ (dispatch env st query).2.1) := by
  have hd := dispatch_rawQuery env st hpre
  have heff : (execute_query env st query none none).2 =
      Effect.execCall ⟨query, st.default_limit, st.default_offset⟩ ::
      (match err with
       | QueryError.httpStatus code reason body =>
         Effect.out (Output.text ("HTTP error: " ++ httpErrorMessage code reason))
           :: (if body = "" then [] else [Effect.out (Output.text body)])
       | QueryError.network msg => [Effect.out (Output.text ("Error: " ++ msg))]
       | QueryError.decode msg => [Effect.out (Output.text ("Error: " ++ msg))]) := by
    unfold execute_query
    dsimp only
    simp only [hexec]
    cases err <;> rfl
  refine ⟨?_, ?_, ?_, ?_⟩
  · rw [hd, execute_query_fst]
  · rw [hd]
  · rw [hd]
    simp [execute_query_none_calls]
  · rw [hd]
    dsimp only
    rw [heff]
    cases err with
    | httpStatus code reason body =>
      refine ⟨by simp, fun hb => ?_⟩
      simp [hb]
    | network msg => simp
    | decode msg => simp

/-- C5 (witness): an `HttpStatusError\x7b500, "oops"\x7d` on `SELECT 1` is
reported with the code and the body, and `lastQuery` still holds
`SELECT 1`. -/
theorem C5_error_handling_witness :
    Effect.out (Output.text ("HTTP error: "
        ++ httpErrorMessage 500 "Internal Server Error"))
      ∈ (dispatch envHttp (initState none none) "SELECT 1").2.1 ∧
    Effect.out (Output.text "oops")
      ∈ (dispatch envHttp (initState none none) "SELECT 1").2.1 ∧
    (dispatch envHttp (initState none none) "SELECT 1").1.last_query
      = some "SELECT 1" := by
  have h := C5_error_handling envHttp (initState none none) "SELECT 1"
    (QueryError.httpStatus 500 "Internal Server Error" "oops")
    (by decide) rfl
  exact ⟨h.2.2.2.1, h.2.2.2.2 (by decide), by rw [h.1]⟩

/-- C6 (counterexample): loading a file that exists but cannot be read
(`PermissionError`) raises an exception the source does not catch: the
session dies rather than staying in the Running state. -/
theorem C6_counterexample :
    (replStep envPerm (initState none none)
        (InputEvent.line "\\f secret.sql")).2.2 = Signal.crash ∧
    Signal.crash ≠ Signal.cont ∧ Signal.crash ≠ Signal.halt := by
  decide

/-- C6 (amended): provided file reads never fail with an uncaught OS error
(the only load-file failure the source handles is an absent file), no
input line crashes the loop, and the loop leaves the Running state exactly
on end-of-input/interrupt or on a line stripping to `\q`. -/
theorem C6_loop_survival (env : Env) (st : ReplState) (ev : InputEvent)
    (hperm : ∀ p, env.readFile p ≠ Except.error FileError.otherOsError) :
    (replStep env st ev).2.2 ≠ Signal.crash ∧
    ((replStep env st ev).2.2 = Signal.halt ↔
      (ev = InputEvent.endOfInput ∨
        ∃ s, ev = InputEvent.line s ∧ pyStrip s = "\\q")) :=
  ⟨(replStep_signal env st ev hperm).2, (replStep_signal env st ev hperm).1⟩

/-- C6 (witness): `\q` halts the loop; an erroring query line does not. -/
theorem C6_loop_survival_witness :
    (replStep envTriv (initState none none)
        (InputEvent.line "\\q")).2.2 = Signal.halt ∧
    (replStep envTriv (initState none none)
        (InputEvent.line "SELECT 1")).2.2 ≠ Signal.crash := by
  constructor
  · exact (C6_loop_survival envTriv (initState none none)
      (InputEvent.line "\\q")
      (fun p h => FileError.noConfusion (Except.error.inj h))).2.mpr
      (Or.inr ⟨"\\q", rfl, by decide⟩)
  · exact (C6_loop_survival envTriv (initState none none)
      (InputEvent.line "SELECT 1")
      (fun p h => FileError.noConfusion (Except.error.inj h))).1

theorem pyOrInt_zero_getD (o : Option Int) : pyOrInt o 0 = o.getD 0 := by
  cases o with
  | none => rfl
  | some v => simp [pyOrInt_some_zero]

/-- C7 (counterexample): in table mode an empty `items` prints only the
`No results.` indicator — `display_result` returns before the summary, so
no summary line is appended even though the result carries a non-zero
offset, total and `hasMore`. -/
theorem C7_counterexample :
    display_result false prEmpty = [Output.text "No results."] ∧
    Output.text (summaryLine prEmpty) ∉ display_result false prEmpty := by
  decide

/-- C7 (amended): JSON mode always appends the one-line summary; table
mode appends it exactly when `items` is non-empty (an empty `items` prints
only the `No results.` indicator and skips both table and summary).  The
summary parts start with the row count and contain the offset entry when
the offset is non-zero, the total entry when the total is non-zero/present
and the more-available hint exactly when `hasMore` holds, the length
accounting for each omission. -/
theorem C7_render_summary (pr : PagedResult) :
    display_result true pr =
      [Output.json (jsonDump pr), Output.text (summaryLine pr)] ∧
    (pr.items = [] → display_result false pr = [Output.text "No results."]) ∧
    (pr.items ≠ [] → display_result false pr =
      [Output.table (tableHeaders pr.items) (tableRows pr.items),
       Output.text (summaryLine pr)]) ∧
    (summaryParts pr).head? =
      some (toString (pr.count.getD (Int.ofNat pr.items.length)) ++ " rows") ∧
    (summaryParts pr).length =
      1 + (if pr.offset.getD 0 ≠ 0 then 1 else 0)
        + (if pr.totalResults.getD 0 ≠ 0 then 1 else 0)
        + (if pr.hasMore.getD false then 1 else 0) ∧
    (pr.offset.getD 0 ≠ 0 →
      ("offset " ++ toString (pr.offset.getD 0)) ∈ summaryParts pr) ∧
    (pr.totalResults.getD 0 ≠ 0 →
      (toString (pr.totalResults.getD 0) ++ " total") ∈ summaryParts pr) ∧
    (pr.hasMore.getD false = true →
      "more available (\\n for next page)" ∈ summaryParts pr) := by
  refine ⟨rfl, ?_, ?_, rfl, ?_, ?_, ?_, ?_⟩
  · intro h
    simp [display_result, h]
  · intro h
    cases hx : pr.items with
    | nil => exact absurd hx h
    | cons a l => simp [display_result, hx]
  · simp only [summaryParts]
    split_ifs <;> simp_all
  · intro h
    simp [summaryParts, h]
  · intro h
    simp [summaryParts, h]
  · intro h
    simp [summaryParts, h]

/-- C7 (witness): a one-row result with offset 2, total 3 and more pages
renders the table plus the summary line, and the summary parts include
`offset 2`. -/
theorem C7_render_summary_witness :
    display_result false prSample =
      [Output.table (tableHeaders prSample.items) (tableRows prSample.items),
       Output.text (summaryLine prSample)] ∧
    ("offset " ++ toString ((prSample.offset).getD 0)) ∈ summaryParts prSample := by
  have h := C7_render_summary prSample
  exact ⟨h.2.2.1 (by decide), h.2.2.2.2.2.1 (by decide)⟩

/-- C8 (counterexample): the spec's concrete scenario has
`totalResults = 1`, which is truthy, so the rendered summary is
`1 rows | 1 total`, not exactly `1 rows`. -/
theorem C8_counterexample :
    Output.text "1 rows" ∉ display_result false pr8 ∧
    display_result false pr8 =
      [Output.table ["x"] [["1"]], Output.text "1 rows | 1 total"] := by
  decide

/-- C8 (amended): executing `SELECT 1` with `defaultLimit=5,
defaultOffset=0` invokes the executor with `("SELECT 1", 5, 0)` (and
`run_suiteql_query` puts both `limit=5` and `offset=0` into the request
parameters, 0 included since it is not `None`); on the returned
`PagedResult` the table render has one column `x`, one row `1`, and the
summary is `1 rows | 1 total` — the total is 1, hence shown; no offset or
more-available hint appears. -/
theorem C8_select1 :
    dispatch env8 st8 "SELECT 1" =
      ({ st8 with last_query := some "SELECT 1" },
       [Effect.execCall ⟨"SELECT 1", some 5, some 0⟩,
        Effect.out (Output.table ["x"] [["1"]]),
        Effect.out (Output.text "1 rows | 1 total")],
       Signal.cont) ∧
    queryParams (some 5) (some 0) = [("limit", 5), ("offset", 0)] := by
  decide

/-- C9 (counterexample): loading a whitespace-only file executes the empty
query (one executor call) and leaves `lastQuery` set to `""`; yet the
subsequent `next-page` still fails with the no-previous-query error,
because `if not last_query` treats the empty string as absent — so the
replay commands do not fail *exactly* when `lastQuery` is unset. -/
theorem C9_counterexample :
    (dispatch env9 (initState none none) "\\f q.sql").1.last_query = some "" ∧
    execCalls (dispatch env9 (initState none none) "\\f q.sql").2.1
      = [⟨"", none, none⟩] ∧
    dispatch env9 ((dispatch env9 (initState none none) "\\f q.sql").1) "\\n" =
      ((dispatch env9 (initState none none) "\\f q.sql").1,
       [Effect.out (Output.text "No previous query to paginate.")],
       Signal.cont) := by
  decide

/-- C9 (amended): from a fresh session, `lastQuery` is set iff at least
one executor call has been made; and `next-page`/`prev-page` fail cleanly
(reported, state untouched, loop continues) exactly when `lastQuery` is
unset *or the empty string*, re-executing otherwise.  (`format-last` is
excluded: the load-file prefix shadows it, see the C1 analysis.) -/
theorem C9_lastquery_invariant :
    (∀ (env : Env) (l o : Option Int) (evs : List InputEvent),
       (((runRepl env (initState l o) evs).1.last_query).isSome = true ↔
         execCalls (runRepl env (initState l o) evs).2.1 ≠ [])) ∧
    (∀ (env : Env) (st : ReplState),
       (st.last_query = none ∨ st.last_query = some "") →
       dispatch env st "\\n" =
         (st, [Effect.out (Output.text "No previous query to paginate.")],
          Signal.cont) ∧
       dispatch env st "\\p" =
         (st, [Effect.out (Output.text "No previous query to paginate.")],
          Signal.cont)) ∧
    (∀ (env : Env) (st : ReplState) (q : String),
       st.last_query = some q → q ≠ "" →
       execCalls (dispatch env st "\\n").2.1 ≠ [] ∧
       execCalls (dispatch env st "\\p").2.1 ≠ []) := by
  refine ⟨?_, ?_, ?_⟩
  · intro env l o evs
    have h := runRepl_lastquery env evs (initState l o)
    simpa [initState] using h
  · intro env st hlq
    exact ⟨dispatch_next_noQuery env st hlq, dispatch_prev_noQuery env st hlq⟩
  · intro env st q hlq hq
    constructor
    · rw [dispatch_next env st hlq hq]
      simp [execCalls, execute_query_none_calls]
    · rw [dispatch_prev env st hlq hq]
      simp [execCalls, execute_query_none_calls]

/-- C9 (witness): after one query line the invariant instance holds, and
in a session whose last query is `SELECT 1` a `next-page` does call the
executor. -/
theorem C9_lastquery_invariant_witness :
    (((runRepl env9 (initState none none)
        [InputEvent.line "SELECT 1"]).1.last_query).isSome = true ↔
      execCalls (runRepl env9 (initState none none)
        [InputEvent.line "SELECT 1"]).2.1 ≠ []) ∧
    execCalls (dispatch env9 stC2 "\\n").2.1 ≠ [] :=
  ⟨C9_lastquery_invariant.1 env9 none none [InputEvent.line "SELECT 1"],
   (C9_lastquery_invariant.2.2 env9 stC2 "SELECT 1" rfl (by decide)).1⟩

/-- C10: with a non-empty last query, `next-page` sets `defaultOffset` to
its previous value (unset read as 0) plus the step (`defaultLimit`, with
unset-or-zero read as 10) and `prev-page` to the clamped difference,
*before* re-executing: the single executor call carries the updated
offset, and the updated offset is the one left in the session state for
every environment — in particular it is not rolled back when the
re-execution fails. -/
theorem C10_offset_persists (env : Env) (st : ReplState) (q : String)
    (hlq : st.last_query = some q) (hq : q ≠ "") :
    (dispatch env st "\\n").1 =
      { st with
          default_offset := some (st.default_offset.getD 0 + pyOrInt st.default_limit 10) } ∧
    execCalls (dispatch env st "\\n").2.1 =
      [⟨q, st.default_limit,
        some (st.default_offset.getD 0 + pyOrInt st.default_limit 10)⟩] ∧
    (dispatch env st "\\p").1 =
      { st with
          default_offset := some (max (st.default_offset.getD 0 - pyOrInt st.default_limit 10) 0) } ∧
    execCalls (dispatch env st "\\p").2.1 =
      [⟨q, st.default_limit,
        some (max (st.default_offset.getD 0 - pyOrInt st.default_limit 10) 0)⟩] := by
  refine ⟨?_, ?_, ?_, ?_⟩
  · rw [dispatch_next env st hlq hq, execute_query_fst,
      update_offset_keep st hlq _, pyOrInt_zero_getD]
  · rw [dispatch_next env st hlq hq]
    simp [execCalls, execute_query_none_calls, pyOrInt_zero_getD]
  · rw [dispatch_prev env st hlq hq, execute_query_fst,
      update_offset_keep st hlq _, pyOrInt_zero_getD]
  · rw [dispatch_prev env st hlq hq]
    simp [execCalls, execute_query_none_calls, pyOrInt_zero_getD]

/-- C10 (witness): with limit 5, offset 0 and a failing executor,
`next-page` leaves offset 5 in the state and the (failed) call used
offset 5 — the update survives the failure. -/
theorem C10_offset_persists_witness :
    (dispatch envTriv stC10 "\\n").1 = { stC10 with default_offset := some 5 } ∧
    execCalls (dispatch envTriv stC10 "\\n").2.1 =
      [⟨"SELECT 1", some 5, some 5⟩] := by
  have h := C10_offset_persists envTriv stC10 "SELECT 1" rfl (by decide)
  exact ⟨by simpa [pyOrInt] using h.1, by simpa [pyOrInt] using h.2.1⟩

end SuiteQL
